import Mathlib

/-!
Shallow embedding of `source/backend/plugin/CarlaPluginInternal.hpp`:
the per-plugin resource tables (audio, CV, parameter, program, MIDI-program),
the post-RT report queue (`PostRtEvents`) and the destructor lock protocol of
`CarlaPluginProtectedData`.

Machine floats appearing as payloads or parameter values are modelled as
rationals (`Rat`); none of the verified properties performs float arithmetic.
Null-able C pointers and owned arrays are modelled as `Option`; an array of
`n` elements becomes `some` of a list of length `n`, an out-of-bounds array
access (undefined behaviour in the C++) is modelled as `none`.
-/

/-- Post-RT event type (`PluginPostRtEventType`, lines 78-86). -/
inductive PluginPostRtEventType where
  | null
  | debug
  | parameterChange
  | programChange
  | midiProgramChange
  | noteOn
  | noteOff
  deriving DecidableEq

/-- A Post-RT event (`PluginPostRtEvent`, lines 92-97): type tag, two integer
payloads and one float payload (modelled as `Rat`). -/
structure PluginPostRtEvent where
  type : PluginPostRtEventType
  value1 : Int
  value2 : Int
  value3 : Rat
  deriving DecidableEq

/-- Modelled from the spec: `CarlaMutex` (`CarlaMutex.hpp` is not under src/).
Sections 4.5 and 5 of the design describe a plain mutex with a blocking
`lock`, a non-blocking `tryLock` whose success proves no holder remained, and
`unlock`. The lock state is a single boolean; `tryLock` succeeds exactly when
the mutex is currently unlocked and then holds it. -/
structure CarlaMutex where
  locked : Bool
  deriving DecidableEq

/-- Non-blocking lock attempt: returns whether it succeeded and the new state. -/
def CarlaMutex.tryLock (m : CarlaMutex) : Bool × CarlaMutex :=
  if m.locked then (false, m) else (true, { locked := true })

/-- Release the mutex. -/
def CarlaMutex.unlock (_ : CarlaMutex) : CarlaMutex :=
  { locked := false }

/-- Pool capacity of the post-RT event pool: `dataPool(128, 128)` (line 597). -/
def kPostRtEventsPoolCapacity : Nat := 128

/-- Modelled from the spec: `RtLinkedList::append` (`RtLinkedList.hpp` is not
under src/): "append(item): copies the item into a free node; fails (no-op,
event dropped) if the arena is exhausted". `used` is the number of pool nodes
currently in use across the queues sharing the pool. -/
def rtAppend {α : Type} (capacity used : Nat) (l : List α) (x : α) : List α :=
  if used < capacity then l ++ [x] else l

/-- Modelled from the spec: `RtLinkedList::spliceAppend` (`RtLinkedList.hpp` is
not under src/): "moves an entire queue's nodes onto the tail of another in
O(1) without copying payloads". Takes the source and destination queues and
returns the new (source, destination) pair: the source becomes empty and its
nodes are appended, in order, to the destination. -/
def spliceAppend {α : Type} (source dest : List α) : List α × List α :=
  ([], dest ++ source)

/-- State of `CarlaPluginProtectedData::PostRtEvents` (lines 590-630): the
report mutex, the consumer-visible queue `data` and the pending queue
`dataPendingRT`, both drawing nodes from the shared 128-slot pool. -/
structure PostRtEvents where
  mutex : CarlaMutex
  data : List PluginPostRtEvent
  dataPendingRT : List PluginPostRtEvent
  deriving DecidableEq

/-- Number of pool nodes in use (both queues share `dataPool`). -/
def PostRtEvents.poolUsed (s : PostRtEvents) : Nat :=
  s.data.length + s.dataPendingRT.length

/-- `PostRtEvents::appendRT` (lines 606-609): append the event to the pending
queue; no mutex is touched on this path. -/
def PostRtEvents.appendRT (s : PostRtEvents) (event : PluginPostRtEvent) : PostRtEvents :=
  { s with dataPendingRT := rtAppend kPostRtEventsPoolCapacity s.poolUsed s.dataPendingRT event }

/-- `PostRtEvents::trySplice` (lines 611-618): if `mutex.tryLock()` succeeds,
splice the whole pending queue onto `data` and unlock; otherwise do nothing. -/
def PostRtEvents.trySplice (s : PostRtEvents) : PostRtEvents :=
  let r := s.mutex.tryLock
  if r.1 then
    let moved := spliceAppend s.dataPendingRT s.data
    { mutex := r.2.unlock, data := moved.2, dataPendingRT := moved.1 }
  else
    { s with mutex := r.2 }

/-- `PluginAudioPort` (lines 107-121): engine-port handle is external, so the
pointer is modelled as presence only. Default constructor: rindex 0, null port. -/
structure PluginAudioPort where
  rindex : Nat
  port : Option Unit
  deriving DecidableEq

/-- `PluginAudioData` (lines 123-180). -/
structure PluginAudioData where
  count : Nat
  ports : Option (List PluginAudioPort)
  deriving DecidableEq

/-- Constructor (lines 127-129): count 0, null ports. -/
def PluginAudioData.init : PluginAudioData :=
  { count := 0, ports := none }

/-- `PluginAudioData::createNew` (lines 137-148): early return when `ports`
is non-null or `newCount == 0`; otherwise allocate `newCount`
default-constructed ports and set the count. -/
def PluginAudioData.createNew (t : PluginAudioData) (newCount : Nat) : PluginAudioData :=
  if t.ports ≠ none ∨ newCount = 0 then t
  else { count := newCount, ports := some (List.replicate newCount { rindex := 0, port := none }) }

/-- `PluginAudioData::clear` (lines 150-168): when `ports` is non-null, free
each port and the array and null the pointer; in all cases reset count to 0. -/
def PluginAudioData.clear (t : PluginAudioData) : PluginAudioData :=
  match t.ports with
  | some _ => { count := 0, ports := none }
  | none => { t with count := 0 }

/-- `PluginCVPort` (lines 184-200): rindex, modulated parameter index, port. -/
structure PluginCVPort where
  rindex : Nat
  param : Nat
  port : Option Unit
  deriving DecidableEq

/-- `PluginCVData` (lines 202-259). -/
structure PluginCVData where
  count : Nat
  ports : Option (List PluginCVPort)
  deriving DecidableEq

/-- Constructor (lines 206-208). -/
def PluginCVData.init : PluginCVData :=
  { count := 0, ports := none }

/-- `PluginCVData::createNew` (lines 216-227), same shape as the audio table. -/
def PluginCVData.createNew (t : PluginCVData) (newCount : Nat) : PluginCVData :=
  if t.ports ≠ none ∨ newCount = 0 then t
  else { count := newCount,
         ports := some (List.replicate newCount { rindex := 0, param := 0, port := none }) }

/-- `PluginCVData::clear` (lines 229-247). -/
def PluginCVData.clear (t : PluginCVData) : PluginCVData :=
  match t.ports with
  | some _ => { count := 0, ports := none }
  | none => { t with count := 0 }

/-- `SpecialParameterType` (lines 306-312). -/
inductive SpecialParameterType where
  | null
  | latency
  | sampleRate
  | lv2Freewheel
  | lv2Time
  deriving DecidableEq

/-- Modelled from the spec: `ParameterData` (declared in the public API header,
not under src/) is the per-parameter "value descriptor"; its field contents are
irrelevant to the table lifecycle verified here, so a placeholder field stands
for the default-constructed descriptor. -/
structure ParameterData where
  hints : Nat
  deriving DecidableEq

/-- Modelled from the spec: `ParameterRanges` (public API header, not under
src/) with the single "fixed value" contract the spec keeps in scope: a range
with a minimum and a maximum into which values are fixed. -/
structure ParameterRanges where
  min : Rat
  max : Rat
  deriving DecidableEq

/-- Modelled from the spec: the range-fixed value clamps `value` into the
range. -/
def ParameterRanges.getFixedValue (r : ParameterRanges) (value : Rat) : Rat :=
  if value ≤ r.min then r.min else if r.max ≤ value then r.max else value

/-- `PluginParameterData` (lines 314-383): count plus three owned arrays, the
`special` one allocated only on request. -/
structure PluginParameterData where
  count : Nat
  data : Option (List ParameterData)
  ranges : Option (List ParameterRanges)
  special : Option (List SpecialParameterType)
  deriving DecidableEq

/-- Constructor (lines 320-324). -/
def PluginParameterData.init : PluginParameterData :=
  { count := 0, data := none, ranges := none, special := none }

/-- `PluginParameterData::createNew` (lines 334-351): early return when `data`
or `ranges` is non-null or `newCount == 0`; otherwise allocate `data` and
`ranges`, set the count, and allocate `special` only when `withSpecial`. -/
def PluginParameterData.createNew (t : PluginParameterData) (newCount : Nat)
    (withSpecial : Bool) : PluginParameterData :=
  if t.data ≠ none ∨ t.ranges ≠ none ∨ newCount = 0 then t
  else
    { count := newCount,
      data := some (List.replicate newCount { hints := 0 }),
      ranges := some (List.replicate newCount { min := 0, max := 1 }),
      special :=
        if withSpecial then some (List.replicate newCount SpecialParameterType.null)
        else t.special }

/-- `PluginParameterData::clear` (lines 353-374): null each of the three
arrays if non-null and reset count to 0. -/
def PluginParameterData.clear (_ : PluginParameterData) : PluginParameterData :=
  { count := 0, data := none, ranges := none, special := none }

/-- `PluginParameterData::getFixedValue` (lines 376-380):
`CARLA_SAFE_ASSERT_RETURN(parameterId < count, 0.0f)` guards the access, so an
out-of-range id returns the safe default 0 without touching `ranges`;
otherwise the result is `ranges[parameterId].getFixedValue(value)` (an access
outside the allocation is undefined behaviour, modelled as `none`). -/
def PluginParameterData.getFixedValue (t : PluginParameterData) (parameterId : Nat)
    (value : Rat) : Option Rat :=
  if parameterId < t.count then
    match t.ranges with
    | none => none
    | some rs => (rs.get? parameterId).map (fun r => r.getFixedValue value)
  else some 0

/-- `PluginProgramData` (lines 389-445): a list of owned names plus the
current index (-1 when none). -/
structure PluginProgramData where
  count : Nat
  current : Int
  names : Option (List (Option String))
  deriving DecidableEq

/-- Constructor (lines 394-397). -/
def PluginProgramData.init : PluginProgramData :=
  { count := 0, current := -1, names := none }

/-- `PluginProgramData::createNew` (lines 406-421): early return when `names`
is non-null or `newCount == 0`; otherwise allocate `newCount` null names and
set the count (`current` is not modified). -/
def PluginProgramData.createNew (t : PluginProgramData) (newCount : Nat) : PluginProgramData :=
  if t.names ≠ none ∨ newCount = 0 then t
  else { t with count := newCount, names := some (List.replicate newCount none) }

/-- `PluginProgramData::clear` (lines 423-442): free the names if allocated,
reset count to 0 and current to -1. -/
def PluginProgramData.clear (t : PluginProgramData) : PluginProgramData :=
  match t.names with
  | some _ => { count := 0, current := -1, names := none }
  | none => { t with count := 0, current := -1 }

/-- Modelled from the spec: `MidiProgramData` (public API header, not under
src/): bank/program/name triples. -/
structure MidiProgramData where
  bank : Nat
  program : Nat
  name : Option String
  deriving DecidableEq

/-- `PluginMidiProgramData` (lines 449-515). -/
structure PluginMidiProgramData where
  count : Nat
  current : Int
  data : Option (List MidiProgramData)
  deriving DecidableEq

/-- Constructor (lines 454-457). -/
def PluginMidiProgramData.init : PluginMidiProgramData :=
  { count := 0, current := -1, data := none }

/-- `PluginMidiProgramData::createNew` (lines 466-485): early return when
`data` is non-null or `newCount == 0`; otherwise allocate `newCount` entries
initialised to bank 0, program 0, null name, and set the count. -/
def PluginMidiProgramData.createNew (t : PluginMidiProgramData) (newCount : Nat) :
    PluginMidiProgramData :=
  if t.data ≠ none ∨ newCount = 0 then t
  else { t with count := newCount,
                data := some (List.replicate newCount { bank := 0, program := 0, name := none }) }

/-- `PluginMidiProgramData::clear` (lines 487-506): free the entries if
allocated, reset count to 0 and current to -1. -/
def PluginMidiProgramData.clear (t : PluginMidiProgramData) : PluginMidiProgramData :=
  match t.data with
  | some _ => { count := 0, current := -1, data := none }
  | none => { t with count := 0, current := -1 }

/-- The condition checked by the assertion in `getCurrent` (line 510):
`CARLA_ASSERT_INT2(current >= 0 && current < static_cast<int32_t>(count), ...)`.
Per the spec (section 7) this is a debug-time assertion that logs; it does not
alter control flow, and in release builds it is compiled out. -/
def PluginMidiProgramData.getCurrentAssertOK (t : PluginMidiProgramData) : Bool :=
  decide (0 ≤ t.current) && decide (t.current < (t.count : Int))

/-- `PluginMidiProgramData::getCurrent` (lines 508-512): after the
(non-guarding) assertion the code returns `data[current]` unconditionally; an
access outside the allocated array is undefined behaviour, modelled as `none`. -/
def PluginMidiProgramData.getCurrent (t : PluginMidiProgramData) : Option MidiProgramData :=
  match t.data with
  | none => none
  | some l => if 0 ≤ t.current then l.get? t.current.toNat else none

/-- The master/single mutex pair of `CarlaPluginProtectedData` (lines 560-561). -/
structure LockPair where
  masterMutex : CarlaMutex
  singleMutex : CarlaMutex
  deriving DecidableEq

/-- The lock-related steps of `~CarlaPluginProtectedData` (lines 720-726 and
776-778): take `lockMaster = masterMutex.tryLock()` and
`lockSingle = singleMutex.tryLock()`, run `CARLA_SAFE_ASSERT(! lockMaster)` and
`CARLA_SAFE_ASSERT(! lockSingle)` (safe-asserts log and continue), then
unconditionally `masterMutex.unlock(); singleMutex.unlock()`. Returns the two
safe-assert outcomes (true = assertion passed) and the final mutex states. -/
def destructorLockSequence (p : LockPair) : (Bool × Bool) × LockPair :=
  let r1 := p.masterMutex.tryLock
  let r2 := p.singleMutex.tryLock
  ((!r1.1, !r2.1), { masterMutex := r1.2.unlock, singleMutex := r2.2.unlock })

/-- The destructor lock contract as the specification words it ("destruction
asserts that a non-blocking lock attempt on each succeeds, proving no other
holder remains, and then explicitly unlocks them"): here the asserted
condition is that each tryLock returned true. Written only to compare with
`destructorLockSequence`, which embeds the code. -/
def destructorLockSequenceClaimed (p : LockPair) : (Bool × Bool) × LockPair :=
  let r1 := p.masterMutex.tryLock
  let r2 := p.singleMutex.tryLock
  ((r1.1, r2.1), { masterMutex := r1.2.unlock, singleMutex := r2.2.unlock })

/-- A lock pair with both mutexes unlocked. -/
def unlockedPair : LockPair :=
  { masterMutex := { locked := false }, singleMutex := { locked := false } }

/-- A lock pair with both mutexes locked (the destructor's expected entry state). -/
def lockedPair : LockPair :=
  { masterMutex := { locked := true }, singleMutex := { locked := true } }

/-! Helper lemmas (shared, not tied to a single claim). -/

/-- When the report mutex is already held, tryLock fails and trySplice is a no-op. -/
theorem PostRtEvents.trySplice_of_locked (s : PostRtEvents) (h : s.mutex.locked = true) :
    s.trySplice = s := by
  rcases s with ⟨⟨m⟩, d, pend⟩
  simp only [PostRtEvents.trySplice, CarlaMutex.tryLock] at *
  subst h
  rfl

/-- When the report mutex is free, trySplice locks it, splices the whole
pending queue onto the consumer-visible queue, and unlocks. -/
theorem PostRtEvents.trySplice_of_unlocked (s : PostRtEvents) (h : s.mutex.locked = false) :
    s.trySplice =
      { mutex := { locked := false }, data := s.data ++ s.dataPendingRT, dataPendingRT := [] } := by
  rcases s with ⟨⟨m⟩, d, pend⟩
  simp only at h
  subst h
  rfl

/-- clear always yields the canonical idle audio table. -/
theorem audio_clear_eq (t : PluginAudioData) : t.clear = PluginAudioData.init := by
  rcases t with ⟨cnt, ports⟩
  cases ports <;> rfl

/-- clear always yields the canonical idle CV table. -/
theorem cv_clear_eq (t : PluginCVData) : t.clear = PluginCVData.init := by
  rcases t with ⟨cnt, ports⟩
  cases ports <;> rfl

/-- clear always yields the canonical idle parameter table. -/
theorem param_clear_eq (t : PluginParameterData) :
    t.clear = PluginParameterData.init := rfl

/-- clear always yields the canonical idle program table. -/
theorem prog_clear_eq (t : PluginProgramData) : t.clear = PluginProgramData.init := by
  rcases t with ⟨cnt, cur, names⟩
  cases names <;> rfl

/-- clear always yields the canonical idle MIDI-program table. -/
theorem midiprog_clear_eq (t : PluginMidiProgramData) :
    t.clear = PluginMidiProgramData.init := by
  rcases t with ⟨cnt, cur, dat⟩
  cases dat <;> rfl

/-! Concrete states used by witnesses and counterexamples. -/

/-- A MIDI-program table whose current index was set out of range below 0. -/
def midiprogCurNeg : PluginMidiProgramData :=
  { count := 2, current := -2,
    data := some [{ bank := 0, program := 0, name := none },
                  { bank := 0, program := 1, name := none }] }

/-- A MIDI-program table whose current index equals its count. -/
def midiprogCurCount : PluginMidiProgramData :=
  { midiprogCurNeg with current := 2 }

/-- A report-queue state with an unlocked mutex, one visible and two pending events. -/
def postRtExample : PostRtEvents :=
  { mutex := { locked := false },
    data := [{ type := PluginPostRtEventType.noteOn, value1 := 0, value2 := 60, value3 := 0 }],
    dataPendingRT :=
      [{ type := PluginPostRtEventType.programChange, value1 := 3, value2 := 0, value3 := 0 },
       { type := PluginPostRtEventType.noteOff, value1 := 0, value2 := 60, value3 := 0 }] }

/-- A report-queue state whose mutex is currently held. -/
def postRtLockedExample : PostRtEvents :=
  { postRtExample with mutex := { locked := true } }

/-- A report event used by witnesses. -/
def debugEvent : PluginPostRtEvent :=
  { type := PluginPostRtEventType.debug, value1 := 0, value2 := 0, value3 := 0 }

/-! Claim theorems. -/

/-- C1: the claim requires `getCurrent()` to be guarded against an
out-of-range current index, with defined, non-crashing behaviour at
index = count and index = -2. In the code the assertion (line 510) is a
debug-time, non-guarding assert: at both failing inputs the assert condition
is false, yet `data[current]` is still evaluated — an out-of-bounds access
(modelled as `none`), i.e. undefined behaviour, not a guarded read. -/
theorem getCurrent_out_of_range_reads_out_of_bounds :
    midiprogCurNeg.getCurrentAssertOK = false ∧
    midiprogCurNeg.getCurrent = none ∧
    midiprogCurCount.getCurrentAssertOK = false ∧
    midiprogCurCount.getCurrent = none := by decide

/-- C2 counterexample: on a fully unlocked pair both tryLocks succeed, so the
contract as the claim words it ("tryLock is asserted to succeed") reports both
assertions passing — but the code's safe-asserts fail there, because the
destructor asserts that each tryLock FAILS; conversely on a fully locked pair
the code's assertions pass. The claim mispredicts the code on
`unlockedPair`. -/
theorem destructor_assert_direction_cex :
    (destructorLockSequenceClaimed unlockedPair).1 = (true, true) ∧
    (destructorLockSequence unlockedPair).1 = (false, false) ∧
    (destructorLockSequence lockedPair).1 = (true, true) := by decide

/-- C2 amended: on destruction, the non-blocking tryLock on the master and on
the single mutex is asserted to FAIL — each assertion passes exactly when the
corresponding mutex was already locked (by the destructor's caller, per the
comment "mutex MUST have been locked before") — and both mutexes are then
explicitly and unconditionally unlocked; destruction never blocks and
proceeds in every case (the safe-asserts only log). -/
theorem destructor_asserts_locks_already_held (p : LockPair) :
    (destructorLockSequence p).1 = (p.masterMutex.locked, p.singleMutex.locked) ∧
    (destructorLockSequence p).2 = unlockedPair := by
  rcases p with ⟨⟨m⟩, ⟨s⟩⟩
  cases m <;> cases s <;> exact ⟨rfl, rfl⟩

/-- C3: for every report-queue state, a successful trySplice (the mutex was
free, so tryLock succeeds) empties the pending queue and appends all pending
events, in producer order, after the existing consumer-visible events — so the
visible length grows by exactly the pending count and no event is duplicated
or lost — and it releases the mutex; when the mutex is held (tryLock fails),
trySplice changes nothing. -/
theorem trySplice_moves_all_or_nothing (s : PostRtEvents) :
    (s.mutex.locked = false →
      s.trySplice.dataPendingRT = [] ∧
      s.trySplice.data = s.data ++ s.dataPendingRT ∧
      s.trySplice.data.length = s.data.length + s.dataPendingRT.length ∧
      s.trySplice.mutex.locked = false) ∧
    (s.mutex.locked = true → s.trySplice = s) := by
  refine ⟨fun h => ?_, PostRtEvents.trySplice_of_locked s⟩
  rw [PostRtEvents.trySplice_of_unlocked s h]
  simp

/-- C3 witness: the splice on a concrete unlocked state with two pending
events, and the no-op on a concrete locked state. -/
theorem trySplice_moves_all_or_nothing_witness :
    postRtExample.trySplice.dataPendingRT = [] ∧
    postRtExample.trySplice.data = postRtExample.data ++ postRtExample.dataPendingRT ∧
    postRtLockedExample.trySplice = postRtLockedExample := by
  refine ⟨((trySplice_moves_all_or_nothing postRtExample).1 rfl).1,
          ((trySplice_moves_all_or_nothing postRtExample).1 rfl).2.1,
          (trySplice_moves_all_or_nothing postRtLockedExample).2 rfl⟩

/-- C4: appendRT performs no mutex operation: the mutex state is untouched,
the consumer-visible queue is untouched, and only the pending queue changes
(the event is appended while the pool has room, dropped once it is full); the
only report-mutex acquisition on that path is the non-blocking tryLock inside
trySplice, which is a no-op when the mutex is already held. -/
theorem appendRT_no_mutex_operation (s : PostRtEvents) (e : PluginPostRtEvent) :
    (s.appendRT e).mutex = s.mutex ∧
    (s.appendRT e).data = s.data ∧
    (s.poolUsed < kPostRtEventsPoolCapacity →
      (s.appendRT e).dataPendingRT = s.dataPendingRT ++ [e]) ∧
    (kPostRtEventsPoolCapacity ≤ s.poolUsed →
      (s.appendRT e).dataPendingRT = s.dataPendingRT) ∧
    (s.mutex.locked = true → s.trySplice = s) := by
  refine ⟨rfl, rfl, fun h => ?_, fun h => ?_, PostRtEvents.trySplice_of_locked s⟩
  · simp [PostRtEvents.appendRT, rtAppend, h]
  · simp [PostRtEvents.appendRT, rtAppend, Nat.not_lt.mpr h]

/-- C4 witness: on a concrete locked state the RT append leaves the mutex
alone and appends to the pending queue, and trySplice is a no-op. -/
theorem appendRT_no_mutex_operation_witness :
    (postRtLockedExample.appendRT debugEvent).mutex = postRtLockedExample.mutex ∧
    (postRtLockedExample.appendRT debugEvent).dataPendingRT
      = postRtLockedExample.dataPendingRT ++ [debugEvent] ∧
    postRtLockedExample.trySplice = postRtLockedExample := by
  have h := appendRT_no_mutex_operation postRtLockedExample debugEvent
  exact ⟨h.1, h.2.2.1 (by decide), h.2.2.2.2 rfl⟩

/-! More shared helper lemmas: createNew from the idle state. -/

/-- createNew from the idle audio table allocates exactly `k` default ports. -/
theorem audio_createNew_from_init (k : Nat) (hk : k ≠ 0) :
    PluginAudioData.init.createNew k
      = { count := k, ports := some (List.replicate k { rindex := 0, port := none }) } := by
  simp [PluginAudioData.createNew, PluginAudioData.init, hk]

/-- createNew from the idle CV table allocates exactly `k` default ports. -/
theorem cv_createNew_from_init (k : Nat) (hk : k ≠ 0) :
    PluginCVData.init.createNew k
      = { count := k,
          ports := some (List.replicate k { rindex := 0, param := 0, port := none }) } := by
  simp [PluginCVData.createNew, PluginCVData.init, hk]

/-- createNew from the idle parameter table allocates `k` descriptors and
ranges, and a special array only when requested. -/
theorem param_createNew_from_init (k : Nat) (ws : Bool) (hk : k ≠ 0) :
    PluginParameterData.init.createNew k ws
      = { count := k,
          data := some (List.replicate k { hints := 0 }),
          ranges := some (List.replicate k { min := 0, max := 1 }),
          special :=
            if ws then some (List.replicate k SpecialParameterType.null) else none } := by
  simp [PluginParameterData.createNew, PluginParameterData.init, hk]

/-- createNew from the idle program table allocates `k` null names. -/
theorem prog_createNew_from_init (k : Nat) (hk : k ≠ 0) :
    PluginProgramData.init.createNew k
      = { count := k, current := -1, names := some (List.replicate k none) } := by
  simp [PluginProgramData.createNew, PluginProgramData.init, hk]

/-- createNew from the idle MIDI-program table allocates `k` zeroed entries. -/
theorem midiprog_createNew_from_init (k : Nat) (hk : k ≠ 0) :
    PluginMidiProgramData.init.createNew k
      = { count := k, current := -1,
          data := some (List.replicate k { bank := 0, program := 0, name := none }) } := by
  simp [PluginMidiProgramData.createNew, PluginMidiProgramData.init, hk]

/-- C5: after clear() every table (audio, CV, parameter, program,
MIDI-program) has count 0 and null array pointers, the program and
MIDI-program tables additionally have current index -1, and clearing an
already-cleared table changes nothing. -/
theorem clear_resets_tables_and_is_idempotent :
    (∀ a : PluginAudioData, a.clear.count = 0 ∧ a.clear.ports = none ∧ a.clear.clear = a.clear) ∧
    (∀ c : PluginCVData, c.clear.count = 0 ∧ c.clear.ports = none ∧ c.clear.clear = c.clear) ∧
    (∀ p : PluginParameterData,
      p.clear.count = 0 ∧ p.clear.data = none ∧ p.clear.ranges = none ∧
      p.clear.special = none ∧ p.clear.clear = p.clear) ∧
    (∀ q : PluginProgramData,
      q.clear.count = 0 ∧ q.clear.current = -1 ∧ q.clear.names = none ∧
      q.clear.clear = q.clear) ∧
    (∀ m : PluginMidiProgramData,
      m.clear.count = 0 ∧ m.clear.current = -1 ∧ m.clear.data = none ∧
      m.clear.clear = m.clear) := by
  refine ⟨fun a => ?_, fun c => ?_, fun p => ?_, fun q => ?_, fun m => ?_⟩ <;>
    simp [audio_clear_eq, cv_clear_eq, param_clear_eq,
          prog_clear_eq, midiprog_clear_eq,
          PluginAudioData.init, PluginCVData.init, PluginParameterData.init,
          PluginProgramData.init, PluginMidiProgramData.init]

/-- C6: for every table starting idle and all n > 0, m > 0 with m ≠ n, the
sequence createNew(n); clear(); createNew(m) succeeds and leaves the table
allocated with count exactly m and a non-null array of m elements. -/
theorem createNew_clear_createNew_sizes (n m : Nat) (hn : 0 < n) (hm : 0 < m) (_hnm : m ≠ n) :
    (((PluginAudioData.init.createNew n).clear.createNew m).count = m ∧
      ∃ l, ((PluginAudioData.init.createNew n).clear.createNew m).ports = some l ∧
        l.length = m) ∧
    (((PluginCVData.init.createNew n).clear.createNew m).count = m ∧
      ∃ l, ((PluginCVData.init.createNew n).clear.createNew m).ports = some l ∧
        l.length = m) ∧
    (∀ ws ws' : Bool,
      (((PluginParameterData.init.createNew n ws).clear.createNew m ws').count = m ∧
        (∃ l, ((PluginParameterData.init.createNew n ws).clear.createNew m ws').data = some l ∧
          l.length = m) ∧
        ∃ r, ((PluginParameterData.init.createNew n ws).clear.createNew m ws').ranges = some r ∧
          r.length = m)) ∧
    (((PluginProgramData.init.createNew n).clear.createNew m).count = m ∧
      ∃ l, ((PluginProgramData.init.createNew n).clear.createNew m).names = some l ∧
        l.length = m) ∧
    (((PluginMidiProgramData.init.createNew n).clear.createNew m).count = m ∧
      ∃ l, ((PluginMidiProgramData.init.createNew n).clear.createNew m).data = some l ∧
        l.length = m) := by
  refine ⟨?_, ?_, fun ws ws' => ?_, ?_, ?_⟩
  · rw [audio_createNew_from_init n hn.ne', audio_clear_eq,
        audio_createNew_from_init m hm.ne']
    exact ⟨rfl, _, rfl, List.length_replicate m _⟩
  · rw [cv_createNew_from_init n hn.ne', cv_clear_eq,
        cv_createNew_from_init m hm.ne']
    exact ⟨rfl, _, rfl, List.length_replicate m _⟩
  · rw [param_createNew_from_init n ws hn.ne', param_clear_eq,
        param_createNew_from_init m ws' hm.ne']
    exact ⟨rfl, ⟨_, rfl, List.length_replicate m _⟩, _, rfl, List.length_replicate m _⟩
  · rw [prog_createNew_from_init n hn.ne', prog_clear_eq,
        prog_createNew_from_init m hm.ne']
    exact ⟨rfl, _, rfl, List.length_replicate m _⟩
  · rw [midiprog_createNew_from_init n hn.ne', midiprog_clear_eq,
        midiprog_createNew_from_init m hm.ne']
    exact ⟨rfl, _, rfl, List.length_replicate m _⟩

/-- C6 witness: the create(2); clear(); create(3) sequence on the audio and
parameter tables yields count 3. -/
theorem createNew_clear_createNew_sizes_witness :
    ((PluginAudioData.init.createNew 2).clear.createNew 3).count = 3 ∧
    ((PluginParameterData.init.createNew 2 true).clear.createNew 3 false).count = 3 := by
  have h := createNew_clear_createNew_sizes 2 3 (by decide) (by decide) (by decide)
  exact ⟨h.1.1, (h.2.2.1 true false).1⟩

/-! Concrete allocated tables for witnesses. -/

/-- An allocated audio table. -/
def audioAllocEx : PluginAudioData :=
  { count := 1, ports := some [{ rindex := 0, port := none }] }

/-- An allocated parameter table (no special array). -/
def paramAllocEx : PluginParameterData :=
  { count := 2,
    data := some (List.replicate 2 { hints := 0 }),
    ranges := some (List.replicate 2 { min := 0, max := 1 }),
    special := none }

/-- A one-parameter table whose single range is [0, 1]. -/
def paramTableEx : PluginParameterData :=
  { count := 1,
    data := some [{ hints := 0 }],
    ranges := some [{ min := 0, max := 1 }],
    special := none }

/-- C7: calling createNew on a table that is already allocated (array pointer
non-null) is a no-op: the early-return guard leaves count and arrays
unchanged, for every requested newCount. -/
theorem createNew_on_allocated_noop :
    (∀ (t : PluginAudioData) (k : Nat), t.ports ≠ none → t.createNew k = t) ∧
    (∀ (t : PluginCVData) (k : Nat), t.ports ≠ none → t.createNew k = t) ∧
    (∀ (t : PluginParameterData) (k : Nat) (ws : Bool), t.data ≠ none → t.createNew k ws = t) ∧
    (∀ (t : PluginProgramData) (k : Nat), t.names ≠ none → t.createNew k = t) ∧
    (∀ (t : PluginMidiProgramData) (k : Nat), t.data ≠ none → t.createNew k = t) := by
  refine ⟨fun t k h => ?_, fun t k h => ?_, fun t k ws h => ?_, fun t k h => ?_,
          fun t k h => ?_⟩
  · simp [PluginAudioData.createNew, h]
  · simp [PluginCVData.createNew, h]
  · simp [PluginParameterData.createNew, h]
  · simp [PluginProgramData.createNew, h]
  · simp [PluginMidiProgramData.createNew, h]

/-- C7 witness: createNew on concrete allocated audio and parameter tables
changes nothing. -/
theorem createNew_on_allocated_noop_witness :
    audioAllocEx.createNew 5 = audioAllocEx ∧
    paramAllocEx.createNew 7 true = paramAllocEx := by
  exact ⟨createNew_on_allocated_noop.1 audioAllocEx 5 (by decide),
         createNew_on_allocated_noop.2.2.1 paramAllocEx 7 true (by decide)⟩

/-- C8: getFixedValue with parameterId out of range returns the safe default 0
— the equation holds for every table, in particular one whose ranges pointer
is null, so the ranges array is not accessed — and with parameterId in range
it returns the range-fixed value of that parameter's range entry. -/
theorem getFixedValue_guarded (t : PluginParameterData) (pid : Nat) (v : Rat) :
    (t.count ≤ pid → t.getFixedValue pid v = some 0) ∧
    (∀ rs, t.ranges = some rs → pid < t.count → pid < rs.length →
      ∃ r, rs.get? pid = some r ∧ t.getFixedValue pid v = some (r.getFixedValue v)) := by
  constructor
  · intro h
    simp [PluginParameterData.getFixedValue, Nat.not_lt.mpr h]
  · intro rs hrs hlt hlen
    refine ⟨rs.get ⟨pid, hlen⟩, List.get?_eq_get hlen, ?_⟩
    simp only [PluginParameterData.getFixedValue, if_pos hlt, hrs, List.get?_eq_get hlen]
    rfl

/-- C8 witness: on a concrete one-parameter table with range [0, 1], an
out-of-range id 3 yields the safe default 0, and the in-range id 0 yields the
range-fixed (clamped) value of 5, which is 1. -/
theorem getFixedValue_guarded_witness :
    paramTableEx.getFixedValue 3 5 = some 0 ∧
    (∃ r, [({ min := 0, max := 1 } : ParameterRanges)].get? 0 = some r ∧
      paramTableEx.getFixedValue 0 5 = some (r.getFixedValue 5)) ∧
    paramTableEx.getFixedValue 0 5 = some 1 := by
  refine ⟨(getFixedValue_guarded paramTableEx 3 5).1 (by decide),
          (getFixedValue_guarded paramTableEx 0 5).2 [{ min := 0, max := 1 }] rfl
            (by decide) (by decide), by decide⟩

/-! Table invariants (for C9). -/

/-- Audio-table invariant: count is 0 exactly when the ports array is null. -/
def PluginAudioData.inv (t : PluginAudioData) : Prop :=
  t.count = 0 ↔ t.ports = none

/-- CV-table invariant: count is 0 exactly when the ports array is null. -/
def PluginCVData.inv (t : PluginCVData) : Prop :=
  t.count = 0 ↔ t.ports = none

/-- Parameter-table invariant: count is 0 exactly when data is null, exactly
when ranges is null; the optional special array is null whenever count is 0
(but may also be null while allocated, since it is only created on request). -/
def PluginParameterData.inv (t : PluginParameterData) : Prop :=
  (t.count = 0 ↔ t.data = none) ∧ (t.count = 0 ↔ t.ranges = none) ∧
    (t.count = 0 → t.special = none)

/-- Program-table invariant: count is 0 exactly when the names array is null. -/
def PluginProgramData.inv (t : PluginProgramData) : Prop :=
  t.count = 0 ↔ t.names = none

/-- MIDI-program-table invariant: count is 0 exactly when the data array is null. -/
def PluginMidiProgramData.inv (t : PluginMidiProgramData) : Prop :=
  t.count = 0 ↔ t.data = none

/-- C9 counterexample: the parameter table created with createNew(1, false)
has count 1 > 0 with data and ranges allocated but its special array pointer
still null, so the claimed invariant "count > 0 implies all backing arrays are
non-null" is false on this reachable state (and hence not preserved by
createNew). -/
theorem param_special_null_while_allocated_cex :
    0 < (PluginParameterData.init.createNew 1 false).count ∧
    (PluginParameterData.init.createNew 1 false).data ≠ none ∧
    (PluginParameterData.init.createNew 1 false).ranges ≠ none ∧
    (PluginParameterData.init.createNew 1 false).special = none := by decide

/-- C9 amended: for every table, count = 0 holds exactly when the mandatory
backing arrays are null (ports; data and ranges; names), and the parameter
table's optional special array — allocated only when requested — is null
whenever count = 0; this invariant holds after construction and is preserved
by createNew and clear, so no operation leaves a partially-allocated state. -/
theorem tables_invariant_established_and_preserved :
    (PluginAudioData.init.inv ∧
      (∀ (t : PluginAudioData) (n : Nat), t.inv → (t.createNew n).inv) ∧
      ∀ t : PluginAudioData, t.clear.inv) ∧
    (PluginCVData.init.inv ∧
      (∀ (t : PluginCVData) (n : Nat), t.inv → (t.createNew n).inv) ∧
      ∀ t : PluginCVData, t.clear.inv) ∧
    (PluginParameterData.init.inv ∧
      (∀ (t : PluginParameterData) (n : Nat) (ws : Bool), t.inv → (t.createNew n ws).inv) ∧
      ∀ t : PluginParameterData, t.clear.inv) ∧
    (PluginProgramData.init.inv ∧
      (∀ (t : PluginProgramData) (n : Nat), t.inv → (t.createNew n).inv) ∧
      ∀ t : PluginProgramData, t.clear.inv) ∧
    (PluginMidiProgramData.init.inv ∧
      (∀ (t : PluginMidiProgramData) (n : Nat), t.inv → (t.createNew n).inv) ∧
      ∀ t : PluginMidiProgramData, t.clear.inv) := by
  refine ⟨⟨?_, fun t n h => ?_, fun t => ?_⟩, ⟨?_, fun t n h => ?_, fun t => ?_⟩,
          ⟨?_, fun t n ws h => ?_, fun t => ?_⟩, ⟨?_, fun t n h => ?_, fun t => ?_⟩,
          ⟨?_, fun t n h => ?_, fun t => ?_⟩⟩
  · simp [PluginAudioData.inv, PluginAudioData.init]
  · by_cases hc : t.ports ≠ none ∨ n = 0
    · unfold PluginAudioData.createNew
      rw [if_pos hc]
      exact h
    · unfold PluginAudioData.createNew
      rw [if_neg hc]
      push_neg at hc
      simp [PluginAudioData.inv, hc.2]
  · rw [audio_clear_eq]
    simp [PluginAudioData.inv, PluginAudioData.init]
  · simp [PluginCVData.inv, PluginCVData.init]
  · by_cases hc : t.ports ≠ none ∨ n = 0
    · unfold PluginCVData.createNew
      rw [if_pos hc]
      exact h
    · unfold PluginCVData.createNew
      rw [if_neg hc]
      push_neg at hc
      simp [PluginCVData.inv, hc.2]
  · rw [cv_clear_eq]
    simp [PluginCVData.inv, PluginCVData.init]
  · simp [PluginParameterData.inv, PluginParameterData.init]
  · by_cases hc : t.data ≠ none ∨ t.ranges ≠ none ∨ n = 0
    · unfold PluginParameterData.createNew
      rw [if_pos hc]
      exact h
    · unfold PluginParameterData.createNew
      rw [if_neg hc]
      push_neg at hc
      simp [PluginParameterData.inv, hc.2.2]
  · rw [param_clear_eq]
    simp [PluginParameterData.inv, PluginParameterData.init]
  · simp [PluginProgramData.inv, PluginProgramData.init]
  · by_cases hc : t.names ≠ none ∨ n = 0
    · unfold PluginProgramData.createNew
      rw [if_pos hc]
      exact h
    · unfold PluginProgramData.createNew
      rw [if_neg hc]
      push_neg at hc
      simp [PluginProgramData.inv, hc.2]
  · rw [prog_clear_eq]
    simp [PluginProgramData.inv, PluginProgramData.init]
  · simp [PluginMidiProgramData.inv, PluginMidiProgramData.init]
  · by_cases hc : t.data ≠ none ∨ n = 0
    · unfold PluginMidiProgramData.createNew
      rw [if_pos hc]
      exact h
    · unfold PluginMidiProgramData.createNew
      rw [if_neg hc]
      push_neg at hc
      simp [PluginMidiProgramData.inv, hc.2]
  · rw [midiprog_clear_eq]
    simp [PluginMidiProgramData.inv, PluginMidiProgramData.init]

/-- C9 amended witness: the preservation clauses applied to the idle audio
table (createNew 4) and to a concrete allocated parameter table (clear). -/
theorem tables_invariant_witness :
    (PluginAudioData.init.createNew 4).inv ∧ paramAllocEx.clear.inv := by
  exact ⟨tables_invariant_established_and_preserved.1.2.1 PluginAudioData.init 4
           (by simp [PluginAudioData.inv, PluginAudioData.init]),
         tables_invariant_established_and_preserved.2.2.1.2.2 paramAllocEx⟩

/-- C10: calling createNew with newCount = 0 on an idle table is a no-op: the
early-return guard fires, the table is returned unchanged and stays idle
(count 0, null arrays) instead of a zero-length array being allocated. -/
theorem createNew_zero_on_idle_noop :
    (∀ t : PluginAudioData, t.count = 0 → t.ports = none →
      t.createNew 0 = t ∧ (t.createNew 0).count = 0 ∧ (t.createNew 0).ports = none) ∧
    (∀ t : PluginCVData, t.count = 0 → t.ports = none →
      t.createNew 0 = t ∧ (t.createNew 0).count = 0 ∧ (t.createNew 0).ports = none) ∧
    (∀ (t : PluginParameterData) (ws : Bool), t.count = 0 → t.data = none → t.ranges = none →
      t.createNew 0 ws = t ∧ (t.createNew 0 ws).count = 0 ∧ (t.createNew 0 ws).data = none ∧
        (t.createNew 0 ws).ranges = none) ∧
    (∀ t : PluginProgramData, t.count = 0 → t.names = none →
      t.createNew 0 = t ∧ (t.createNew 0).count = 0 ∧ (t.createNew 0).names = none) ∧
    (∀ t : PluginMidiProgramData, t.count = 0 → t.data = none →
      t.createNew 0 = t ∧ (t.createNew 0).count = 0 ∧ (t.createNew 0).data = none) := by
  refine ⟨fun t h1 h2 => ?_, fun t h1 h2 => ?_, fun t ws h1 h2 h3 => ?_,
          fun t h1 h2 => ?_, fun t h1 h2 => ?_⟩
  · have e : t.createNew 0 = t := by simp [PluginAudioData.createNew]
    exact ⟨e, by rw [e]; exact h1, by rw [e]; exact h2⟩
  · have e : t.createNew 0 = t := by simp [PluginCVData.createNew]
    exact ⟨e, by rw [e]; exact h1, by rw [e]; exact h2⟩
  · have e : t.createNew 0 ws = t := by simp [PluginParameterData.createNew]
    exact ⟨e, by rw [e]; exact h1, by rw [e]; exact h2, by rw [e]; exact h3⟩
  · have e : t.createNew 0 = t := by simp [PluginProgramData.createNew]
    exact ⟨e, by rw [e]; exact h1, by rw [e]; exact h2⟩
  · have e : t.createNew 0 = t := by simp [PluginMidiProgramData.createNew]
    exact ⟨e, by rw [e]; exact h1, by rw [e]; exact h2⟩

/-- C10 witness: createNew 0 on the idle audio and MIDI-program tables. -/
theorem createNew_zero_on_idle_noop_witness :
    PluginAudioData.init.createNew 0 = PluginAudioData.init ∧
    PluginMidiProgramData.init.createNew 0 = PluginMidiProgramData.init := by
  exact ⟨(createNew_zero_on_idle_noop.1 PluginAudioData.init rfl rfl).1,
         (createNew_zero_on_idle_noop.2.2.2.2 PluginMidiProgramData.init rfl rfl).1⟩
